import Mathlib

/-!
Shallow embedding of the stash query compiler (`pkg/models/querybuilder_sql.go`),
the studio entity query builder, and the auto-tag name matcher, together with
proofs of the specified properties.

Go strings are embedded as Lean `String` / `List Char`; Go `int` as `Int`;
Go slices as `List`; `nil` pointers as `Option.none`.  Panics are modelled by
an explicit outcome constructor; database interaction by an oracle supplying
the result of each store call.
-/

namespace Stash

/-- Go `strings.Split(s, sep)` for a one-character separator: splits at every
occurrence of `sep`, keeping empty components. -/
def splitChar (sep : Char) : List Char → List (List Char)
  | [] => [[]]
  | c :: cs =>
    let r := splitChar sep cs
    if c = sep then [] :: r
    else
      match r with
      | [] => [[c]]
      | w :: ws => (c :: w) :: ws

/-- Go `strings.TrimRight(s, cutset)`: removes trailing characters that are in
the cutset. -/
def trimRightCutset (s cutset : List Char) : List Char :=
  (s.reverse.dropWhile (fun c => cutset.contains c)).reverse

/-- Go `strings.Trim(s, cutset)`: removes leading and trailing characters that
are in the cutset. -/
def goTrim (s cutset : List Char) : List Char :=
  trimRightCutset (s.dropWhile (fun c => cutset.contains c)) cutset

/-- Go `strings.Join(elems, sep)`. -/
def goJoin (elems : List String) (sep : String) : String :=
  String.intercalate sep elems

/-- Go `strings.Repeat(s, count)` at the character-list level. -/
def goRepeatChars (s : List Char) : Nat → List Char
  | 0 => []
  | n + 1 => s ++ goRepeatChars s n

/-- Go `strings.Contains(s, substr)` at the character-list level. -/
def containsSub (s pat : List Char) : Bool :=
  (List.range (s.length + 1)).any (fun i => ((s.drop i).take pat.length) = pat)

/-- Number of `?` placeholders occurring in a rendered SQL fragment. -/
def placeholderCount (s : String) : Nat :=
  s.data.count '?'

/-- Outcome of a computation that may terminate the process (Go `panic`). -/
inductive PanicOr (α : Type) where
  | panicked (msg : String)
  | ok (a : α)
  deriving DecidableEq, Repr

/-- `FindFilterType` — modelled from the spec: the transport-layer filter
request shape `{ search?, page?, perPage?, sort?, direction? }` (the Go struct
is generated GraphQL model code that is not part of the analysed sources). -/
structure FindFilterType where
  Q : Option String := none
  Page : Option Int := none
  PerPage : Option Int := none
  -- Go field `Sort` (renamed: `Sort` is a Lean keyword)
  SortKey : Option String := none
  Direction : Option String := none
  deriving DecidableEq, Repr

/-- Modelled from the spec: generated accessor returning the requested sort
key or the supplied default when absent. -/
def FindFilterType.GetSort (f : FindFilterType) (defaultSort : String) : String :=
  f.SortKey.getD defaultSort

/-- Modelled from the spec: generated accessor returning the requested sort
direction, defaulting to ASC when absent. -/
def FindFilterType.GetDirection (f : FindFilterType) : String :=
  f.Direction.getD "ASC"

/-- `getPagination` from `querybuilder_sql.go`: panics on a nil filter,
otherwise clamps page and page size and renders the LIMIT/OFFSET fragment. -/
def getPagination : Option FindFilterType → PanicOr String
  | none => .panicked "nil find filter for pagination"
  | some findFilter =>
    let page : Int :=
      match findFilter.Page with
      | none => 1
      | some p => if p < 1 then 1 else p
    let perPage0 : Int :=
      match findFilter.PerPage with
      | none => 25
      | some pp => pp
    let perPage : Int :=
      if perPage0 > 120 then 120
      else if perPage0 < 1 then 1
      else perPage0
    let offset := (page - 1) * perPage
    .ok (" LIMIT " ++ toString perPage ++ " OFFSET " ++ toString offset ++ " ")

/-- `getColumn` from `querybuilder_sql.go`. -/
def getColumn (tableName columnName : String) : String :=
  tableName ++ "." ++ columnName

/-- `selectAll` from `querybuilder_sql.go`. -/
def selectAll (tableName : String) : String :=
  "SELECT " ++ getColumn tableName "*" ++ " FROM " ++ tableName ++ " "

/-- `selectDistinctIDs` from `querybuilder_sql.go`. -/
def selectDistinctIDs (tableName : String) : String :=
  "SELECT DISTINCT " ++ getColumn tableName "id" ++ " FROM " ++ tableName ++ " "

/-- `buildCountQuery` from `querybuilder_sql.go`. -/
def buildCountQuery (query : String) : String :=
  "SELECT COUNT(*) as count FROM (" ++ query ++ ") as temp"

/-- The module-level `randomSortFloat` rendered by `strconv.FormatFloat`;
its value is a per-process random draw, modelled as an unspecified constant
(no claim depends on it). -/
def randomSortFloatStr : String := "0.3333333333333333"

/-- `getSort` from `querybuilder_sql.go`. -/
def getSort (sort direction tableName : String) : String :=
  let direction := if direction ≠ "ASC" ∧ direction ≠ "DESC" then "ASC" else direction
  if containsSub sort.data "_count".data then
    let relationTableName := String.mk ((splitChar '_' sort.data).headD [])
    let colName := getColumn relationTableName "id"
    " ORDER BY COUNT(distinct " ++ colName ++ ") " ++ direction
  else if sort = "filesize" then
    let colName := getColumn tableName "size"
    " ORDER BY cast(" ++ colName ++ " as integer) " ++ direction
  else if sort = "random" then
    let colName := getColumn tableName "id"
    " ORDER BY " ++ "(substr(" ++ colName ++ " * " ++ randomSortFloatStr ++
      ", length(" ++ colName ++ ") + 2))" ++ " " ++ direction
  else
    let colName := getColumn tableName sort
    let additional :=
      if tableName = "scenes" then ", bitrate DESC, framerate DESC, rating DESC, duration DESC"
      else if tableName = "scene_markers" then ", scene_markers.scene_id ASC, scene_markers.seconds ASC"
      else ""
    if sort = "name" then
      " ORDER BY " ++ colName ++ " COLLATE NOCASE " ++ direction ++ additional
    else
      " ORDER BY " ++ colName ++ " " ++ direction ++ additional

/-- The single-quote character used by `getSearch` when splicing the query
text directly into the statement. -/
def apos : Char := Char.ofNat 39

/-- `getSearch` from `querybuilder_sql.go`: builds LIKE clauses by string
concatenation (the source itself carries the comment
`TODO - susceptible to SQL injection`). -/
def getSearch (columns : List String) (q : String) : String :=
  let queryWords := (splitChar ' ' q.data).map String.mk
  let trimmedQuery := String.mk (goTrim q.data ['"'])
  let likeClauses :=
    if trimmedQuery = q then
      -- Search for any word
      queryWords.foldl (fun acc word =>
        columns.foldl (fun acc column =>
          acc ++ [column ++ " LIKE " ++ String.mk [apos, '%'] ++ word ++ String.mk ['%', apos]]) acc)
        []
    else
      -- Search the exact query
      columns.foldl (fun acc column =>
        acc ++ [column ++ " LIKE " ++ String.mk [apos, '%'] ++ trimmedQuery ++ String.mk ['%', apos]])
        []
  "(" ++ goJoin likeClauses " OR " ++ ")"

/-- `getSearchBinding` from `querybuilder_sql.go`: the parameterised search
clause builder, returning the clause text and the positional argument list. -/
def getSearchBinding (columns : List String) (q : String) (notFlag : Bool) :
    String × List String :=
  let notStr := if notFlag then " NOT " else ""
  let binaryType := if notFlag then " AND " else " OR "
  let queryWords := (splitChar ' ' q.data).map String.mk
  let trimmedQuery := String.mk (goTrim q.data ['"'])
  let acc :=
    if trimmedQuery = q then
      -- Search for any word
      queryWords.foldl (fun (acc : List String × List String) word =>
        columns.foldl (fun acc column =>
          (acc.1 ++ [column ++ notStr ++ " LIKE ?"], acc.2 ++ ["%" ++ word ++ "%"])) acc)
        ([], [])
    else
      -- Search the exact query
      columns.foldl (fun (acc : List String × List String) column =>
        (acc.1 ++ [column ++ notStr ++ " LIKE ?"], acc.2 ++ ["%" ++ trimmedQuery ++ "%"]))
        ([], [])
  ("(" ++ goJoin acc.1 binaryType ++ ")", acc.2)

/-- `getInBinding` from `querybuilder_sql.go`. -/
def getInBinding (length : Nat) : String :=
  let bindings := goRepeatChars "?, ".data length
  let bindings := trimRightCutset bindings ", ".data
  "(" ++ String.mk bindings ++ ")"

/-- Modelled from the spec: the generated `CriterionModifier` GraphQL enum
(a Go string type) with the modifier set listed in the spec — equals,
not-equals, greater-than, less-than, is-null, not-null, includes, excludes.
The generated `String()` method is the identity on the underlying string. -/
def validModifiers : List String :=
  ["EQUALS", "NOT_EQUALS", "GREATER_THAN", "LESS_THAN",
   "IS_NULL", "NOT_NULL", "INCLUDES", "EXCLUDES"]

/-- The generated `CriterionModifier` type: a Go string type. -/
abbrev CriterionModifier := String

/-- Modelled from the spec: the generated `IsValid` membership test of
`CriterionModifier`. -/
def CriterionModifier.IsValid (cm : CriterionModifier) : Bool :=
  validModifiers.contains cm

/-- The Go `interface{}` value handed to `getCriterionModifierBinding`:
a string slice, an int slice, or anything else. -/
inductive GoValue where
  | strs (xs : List String)
  | ints (xs : List Int)
  | other
  deriving DecidableEq, Repr

/-- The `length` computed by the type switch at the top of
`getCriterionModifierBinding`. -/
def GoValue.lengthOf : GoValue → Nat
  | .strs xs => xs.length
  | .ints xs => xs.length
  | .other => 1

/-- `getSimpleCriterionClause` from `querybuilder_sql.go`. -/
def getSimpleCriterionClause (criterionModifier : CriterionModifier) (rhs : String) :
    String × Nat :=
  if criterionModifier.IsValid then
    match criterionModifier with
    | "EQUALS" => ("= " ++ rhs, 1)
    | "NOT_EQUALS" => ("!= " ++ rhs, 1)
    | "GREATER_THAN" => ("> " ++ rhs, 1)
    | "LESS_THAN" => ("< " ++ rhs, 1)
    | "IS_NULL" => ("IS NULL", 0)
    | "NOT_NULL" => ("IS NOT NULL", 0)
    | _ => ("= ?", 1)
  else
    ("= ?", 1)

/-- `getCriterionModifierBinding` from `querybuilder_sql.go`. -/
def getCriterionModifierBinding (criterionModifier : CriterionModifier) (value : GoValue) :
    String × Nat :=
  let length := value.lengthOf
  if criterionModifier.IsValid then
    match criterionModifier with
    | "EQUALS" | "NOT_EQUALS" | "GREATER_THAN" | "LESS_THAN" | "IS_NULL" | "NOT_NULL" =>
      getSimpleCriterionClause criterionModifier "?"
    | "INCLUDES" => ("IN " ++ getInBinding length, length)
    | "EXCLUDES" => ("NOT IN " ++ getInBinding length, length)
    | _ => ("= ?", 1)
  else
    ("= ?", 1)

/-- Result of one store call: rows, the `sql.ErrNoRows` condition, or any
other execution failure. -/
inductive DBRes (α : Type) where
  | rows (a : α)
  | noRows
  | failure (e : String)
  deriving DecidableEq, Repr

/-- The relational store, as seen by a find operation: an oracle giving the
result of `database.DB.Get` (count row) and `database.DB.Select` (id rows)
for a statement text and its positional argument list. -/
structure Store where
  get : String → List String → DBRes Int
  select : String → List String → DBRes (List Int)

/-- `runIdsQuery` from `querybuilder_sql.go`: `sql.ErrNoRows` is not an
error — the result slice stays empty — while any other failure is returned. -/
def runIdsQuery (store : Store) (query : String) (args : List String) :
    Except String (List Int) :=
  match store.select query args with
  | .rows ids => .ok ids
  | .noRows => .ok []
  | .failure e => .error e

/-- `runCountQuery` from `querybuilder_sql.go`: `sql.ErrNoRows` is not an
error — the zero-initialised count is returned — while any other failure is
returned. -/
def runCountQuery (store : Store) (query : String) (args : List String) :
    Except String Int :=
  match store.get query args with
  | .rows n => .ok n
  | .noRows => .ok 0
  | .failure e => .error e

/-- The two statement texts and argument lists a find operation executes. -/
structure FindQueryTexts where
  countQuery : String
  countArgs : List String
  idsQuery : String
  idsArgs : List String
  deriving DecidableEq, Repr

/-- The query-text construction of `executeFindQuery`
(`querybuilder_sql.go` lines 269–282): WHERE fragments AND-joined, mandatory
GROUP BY on the primary id, HAVING fragments AND-joined; the count query
wraps the body, the id query appends the sort-and-pagination fragment, and
both receive the same argument list. -/
def executeFindQueryTexts (tableName body : String) (args : List String)
    (sortAndPagination : String) (whereClauses havingClauses : List String) :
    FindQueryTexts :=
  let body :=
    if whereClauses.length > 0 then body ++ " WHERE " ++ goJoin whereClauses " AND "
    else body
  let body := body ++ " GROUP BY " ++ tableName ++ ".id "
  let body :=
    if havingClauses.length > 0 then body ++ " HAVING " ++ goJoin havingClauses " AND "
    else body
  { countQuery := buildCountQuery body, countArgs := args,
    idsQuery := body ++ sortAndPagination, idsArgs := args }

/-- Outcome of a find operation: the page's ids plus the total count, or a
panic aborting the whole operation. -/
inductive FindOutcome where
  | ok (ids : List Int) (count : Int)
  | panicked (msg : String)
  deriving DecidableEq, Repr

/-- `executeFindQuery` from `querybuilder_sql.go`: runs the count query and
the id query against the store and panics if either failed (the count error
is checked first, as in the source). -/
def executeFindQuery (store : Store) (tableName body : String) (args : List String)
    (sortAndPagination : String) (whereClauses havingClauses : List String) :
    FindOutcome :=
  let t := executeFindQueryTexts tableName body args sortAndPagination
    whereClauses havingClauses
  let countResult := runCountQuery store t.countQuery t.countArgs
  let idsResult := runIdsQuery store t.idsQuery t.idsArgs
  match countResult with
  | .error e => .panicked e
  | .ok c =>
    match idsResult with
    | .error e => .panicked e
    | .ok ids => .ok ids c

/-- One reflected struct field value, by the cases of the type switch in
`sqlGenKeys`.  `float64` is modelled by its zero test (the only observation
the switch makes); `SQLiteTimestamp` by whether its `time.Time` is the zero
instant; `SQLiteDate` and the `sql.Null*` wrappers by their `Valid` flag; the
default case (pointers, slices, …) by whether the reflected value is nil. -/
inductive FieldValue where
  | str (s : String)
  | int (i : Int)
  | float (isZero : Bool)
  | timestamp (timestampIsZero : Bool)
  | date (valid : Bool)
  | nullString (valid : Bool)
  | nullBool (valid : Bool)
  | nullInt64 (valid : Bool)
  | nullFloat64 (valid : Bool)
  | ptr (isNil : Bool)
  deriving DecidableEq, Repr

/-- A reflected struct field: its `db` struct tag and its value. -/
structure GoField where
  tag : String
  value : FieldValue
  deriving DecidableEq, Repr

/-- The column key extracted from a `db` struct tag:
`strings.Split(rawKey, ",")[0]`. -/
def dbKey (tag : String) : String :=
  String.mk ((splitChar ',' tag.data).headD [])

/-- The per-case inclusion test of the type switch in `sqlGenKeys` (note the
default nil-pointer case does not consult the partial flag, as in the
source). -/
def includeField (partialMode : Bool) : FieldValue → Bool
  | .str s => partialMode || s != ""
  | .int i => partialMode || i != 0
  | .float isZero => partialMode || !isZero
  | .timestamp timestampIsZero => partialMode || !timestampIsZero
  | .date valid => partialMode || valid
  | .nullString valid => partialMode || valid
  | .nullBool valid => partialMode || valid
  | .nullInt64 valid => partialMode || valid
  | .nullFloat64 valid => partialMode || valid
  | .ptr isNil => !isNil

/-- `sqlGenKeys` from `querybuilder_sql.go`: walks the struct fields in
order, skips the id column, appends `key=:key` for each included field and
joins with commas. -/
def sqlGenKeys (fields : List GoField) (partialMode : Bool) : String :=
  let query := fields.foldl (fun (query : List String) f =>
    let key := dbKey f.tag
    if key = "id" then query
    else if includeField partialMode f.value then query ++ [key ++ "=:" ++ key]
    else query) []
  goJoin query ", "

/-- `SQLGenKeys` from `querybuilder_sql.go`: the full (non-partial) form. -/
def SQLGenKeys (fields : List GoField) : String :=
  sqlGenKeys fields false

/-- The field-is-empty convention as the spec states it: a field is "set"
when it is a non-empty string, a non-zero int or float, a non-zero timestamp,
a valid date or `sql.Null*` wrapper, or a non-nil pointer. -/
def FieldValue.nonEmpty : FieldValue → Bool
  | .str s => s != ""
  | .int i => i != 0
  | .float isZero => !isZero
  | .timestamp timestampIsZero => !timestampIsZero
  | .date valid => valid
  | .nullString valid => valid
  | .nullBool valid => valid
  | .nullInt64 valid => valid
  | .nullFloat64 valid => valid
  | .ptr isNil => !isNil

/-- Outcome of a mutating entity operation: a panic, a recoverable error
returned to the caller, or success. -/
inductive MutOutcome (α : Type) where
  | panicked (msg : String)
  | err (e : String)
  | ok (a : α)
  deriving DecidableEq, Repr

/-- Whether a mutation outcome is a panic. -/
def MutOutcome.isPanic {α : Type} : MutOutcome α → Bool
  | .panicked _ => true
  | _ => false

/-- The panic message of `ensureTx` / `executeDeleteQuery` on a nil
transaction. -/
def ensureTxPanicMsg : String := "must use a transaction"

/-- The Go runtime panic raised by calling a method that dereferences a nil
`*sqlx.Tx` receiver. -/
def nilTxDerefMsg : String :=
  "runtime error: invalid memory address or nil pointer dereference"

/-- `ensureTx` from `querybuilder_sql.go`: panics when no transaction is
supplied, otherwise yields it. -/
def ensureTx {τ : Type} : Option τ → PanicOr τ
  | none => .panicked ensureTxPanicMsg
  | some tx => .ok tx

/-- The studio record; only the fields the embedded operations observe are
carried (the id, and the raw field list the reflection walks). -/
structure Studio where
  ID : Int := 0
  deriving DecidableEq, Repr

/-- Store responses consumed by `StudioQueryBuilder.Create`: the INSERT
(`NamedExec`, whose result carries `LastInsertId`) and the re-fetch
(`tx.Get`). -/
structure CreateTxOracle where
  namedExec : Except String (Except String Int)
  getStudio : Except String Studio

/-- `StudioQueryBuilder.Create`: requires a transaction via `ensureTx`, runs
the INSERT, reads the last-insert id, re-fetches the row; every store
failure is returned as an error. -/
def StudioQueryBuilder.Create (newStudio : Studio) (tx : Option CreateTxOracle) :
    MutOutcome Studio :=
  match ensureTx tx with
  | .panicked msg => .panicked msg
  | .ok t =>
    match t.namedExec with
    | .error e => .err e
    | .ok result =>
      match result with
      | .error e => .err e
      | .ok _studioID =>
        match t.getStudio with
        | .error e => .err e
        | .ok s => .ok s

/-- Store responses consumed by `StudioQueryBuilder.Update`: the UPDATE
(`NamedExec`) and the re-fetch (`tx.Get`). -/
structure UpdateTxOracle where
  namedExec : Except String Unit
  getStudio : Except String Studio

/-- `StudioQueryBuilder.Update`: requires a transaction via `ensureTx`, runs
`UPDATE studios SET <SQLGenKeys(...)> WHERE studios.id = :id`, re-fetches the
row; every store failure is returned as an error. -/
def StudioQueryBuilder.Update (updatedStudio : Studio) (tx : Option UpdateTxOracle) :
    MutOutcome Studio :=
  match ensureTx tx with
  | .panicked msg => .panicked msg
  | .ok t =>
    match t.namedExec with
    | .error e => .err e
    | .ok _ =>
      match t.getStudio with
      | .error e => .err e
      | .ok s => .ok s

/-- Store responses consumed by `StudioQueryBuilder.Destroy`: the two
foreign-key-clearing UPDATEs and the DELETE issued by
`executeDeleteQuery`. -/
structure DestroyTxOracle where
  execScenes : Except String Unit
  execScrapedItems : Except String Unit
  execDelete : Except String Unit

/-- `executeDeleteQuery` from `querybuilder_sql.go`: panics on a nil
transaction, otherwise issues the DELETE. -/
def executeDeleteQuery (tx : Option DestroyTxOracle) : MutOutcome Unit :=
  match tx with
  | none => .panicked ensureTxPanicMsg
  | some t =>
    match t.execDelete with
    | .error e => .err e
    | .ok _ => .ok ()

/-- `StudioQueryBuilder.Destroy`: its first statement is `tx.Exec(...)`,
which on a nil `*sqlx.Tx` receiver dereferences nil and panics at runtime;
with a transaction it clears `scenes.studio_id` and
`scraped_items.studio_id`, then delegates to `executeDeleteQuery`. -/
def StudioQueryBuilder.Destroy (tx : Option DestroyTxOracle) : MutOutcome Unit :=
  match tx with
  | none => .panicked nilTxDerefMsg
  | some t =>
    match t.execScenes with
    | .error e => .err e
    | .ok _ =>
      match t.execScrapedItems with
      | .error e => .err e
      | .ok _ => executeDeleteQuery (some t)

/-- `getStudioSort` from the studio query builder: defaults to sort key
`name` ascending on a nil filter, otherwise reads the filter's sort key and
direction. -/
def getStudioSort : Option FindFilterType → String
  | none => getSort "name" "ASC" "studios"
  | some findFilter =>
    getSort (findFilter.GetSort "name") findFilter.GetDirection "studios"

/-- The studio join clause appended to the base projection in
`StudioQueryBuilder.Query` (a raw Go string containing layout whitespace;
the exact whitespace is immaterial to the claims). -/
def studioJoinClause : String :=
  " left join scenes on studios.id = scenes.studio_id "

/-- The fragment-construction part of `StudioQueryBuilder.Query`: body,
where clauses, args and the sort-and-pagination fragment, before the find
operation is executed. -/
structure StudioQueryPlan where
  body : String
  whereClauses : List String
  args : List String
  sortAndPagination : String
  deriving DecidableEq, Repr

/-- `StudioQueryBuilder.Query`, fragment-construction part: a nil filter is
replaced by a fresh empty filter, the free-text search (when present and
non-empty) adds a `getSearch` where clause, and sort plus pagination are
resolved from the (now non-nil) filter. -/
def studioQueryPlan (findFilter : Option FindFilterType) : PanicOr StudioQueryPlan :=
  let findFilter : FindFilterType :=
    match findFilter with
    | none => {}
    | some f => f
  let whereClauses : List String := []
  let args : List String := []
  let body := selectDistinctIDs "studios" ++ studioJoinClause
  let whereClauses :=
    match findFilter.Q with
    | some q => if q ≠ "" then whereClauses ++ [getSearch ["studios.name"] q] else whereClauses
    | none => whereClauses
  match getPagination (some findFilter) with
  | .panicked msg => .panicked msg
  | .ok pagination =>
    .ok { body := body, whereClauses := whereClauses, args := args,
          sortAndPagination := getStudioSort (some findFilter) ++ pagination }

/-- Modelled from the spec: the recognized word separators of the
name-pattern matcher ("." "-" "_" " "). -/
def separators : List Char := ['.', '-', '_', ' ']

/-- Modelled from the spec: forward and backward path delimiters. -/
def pathDelims : List Char := ['/', '\\']

/-- Modelled from the spec: a character that may flank a name occurrence —
a recognized separator or a path delimiter. -/
def isBoundary (c : Char) : Bool :=
  (separators ++ pathDelims).contains c

/-- Modelled from the spec: the name variant for one separator style — the
name's internal spaces rewritten to that separator. -/
def replaceSpaces (name : List Char) (sep : Char) : List Char :=
  name.map (fun c => if c = ' ' then sep else c)

/-- Modelled from the spec: whether the pattern occurs in the path starting
at index `i` as one contiguous whole token — the characters match and both
flanks are a segment start/end or a boundary character. -/
def patternAt (pat path : List Char) (i : Nat) : Bool :=
  (((path.drop i).take pat.length) = pat) &&
  (i = 0 || isBoundary (path.getD (i - 1) 'x')) &&
  (i + pat.length = path.length || isBoundary (path.getD (i + pat.length) 'x'))

/-- Modelled from the spec: whether the pattern occurs anywhere in the path
as a whole token. -/
def matchesPattern (pat path : List Char) : Bool :=
  (List.range (path.length + 1)).any (patternAt pat path)

/-- Modelled from the spec: the name-pattern matcher
`matches(entityName, filePath)` of the auto-tagger core, whose Go source is
not among the analysed files (only its integration tests are).  Matching is
case-insensitive; for every recognized separator the name with its internal
spaces rewritten to that separator must occur in the path as one contiguous
whole token flanked by segment boundaries, separators or path delimiters. -/
def nameMatches (entityName filePath : List Char) : Bool :=
  let lname := entityName.map Char.toLower
  let lpath := filePath.map Char.toLower
  separators.any (fun sep => matchesPattern (replaceSpaces lname sep) lpath)

/-- The apostrophe character of the test entity name. -/
def apostrophe : Char := Char.ofNat 39

/-- The test entity name `Foo<apostrophe>s Bar` from the auto-tag
integration tests. -/
def testEntityName : List Char :=
  "Foo".data ++ [apostrophe] ++ "s Bar".data

/-- The true-positive path `aaa-Foo<apostrophe>s-Bar-bbb.mp4` (the name,
space rewritten to `-`, embedded between two tokens). -/
def truePositivePath : List Char :=
  "aaa-Foo".data ++ [apostrophe] ++ "s-Bar-bbb.mp4".data

/-- The false-positive path `Foo<apostrophe>s-aaa-Bar.mp4` generated by
`generateFalseNamePattern`: the two name halves appear but are not
adjacent. -/
def falsePositivePath : List Char :=
  "Foo".data ++ [apostrophe] ++ "s-aaa-Bar.mp4".data

/-- The search-clause builder as claim C5 words it: the phrase branch is
taken exactly when the query string is wrapped in quotation marks (first and
last character are quotes), the word branch splits the query at spaces; the
clause/argument construction and the AND/OR/NOT rule are as in the source. -/
def claimedSearchBinding (columns : List String) (q : String) (notFlag : Bool) :
    String × List String :=
  let notStr := if notFlag then " NOT " else ""
  let binaryType := if notFlag then " AND " else " OR "
  let wrapped := decide (2 ≤ q.data.length) &&
    (q.data.head? = some '"') && (q.data.getLast? = some '"')
  let pieces : List (String × String) :=
    if wrapped then
      let phrase := String.mk (goTrim q.data ['"'])
      columns.map (fun column => (column, phrase))
    else
      let words := (splitChar ' ' q.data).map String.mk
      words.flatMap (fun word => columns.map (fun column => (column, word)))
  ("(" ++ String.intercalate binaryType
      (pieces.map (fun p => p.1 ++ notStr ++ " LIKE ?")) ++ ")",
   pieces.map (fun p => "%" ++ p.2 ++ "%"))

/-- The search-clause builder as amended: the phrase branch is taken exactly
when trimming quotation marks from both ends changes the query string, and
the word branch splits the query at space characters; expressed directly as
one clause and one argument per (column) or (word, column) pair. -/
def amendedSearchBinding (columns : List String) (q : String) (notFlag : Bool) :
    String × List String :=
  let notStr := if notFlag then " NOT " else ""
  let binaryType := if notFlag then " AND " else " OR "
  let trimmedQuery := String.mk (goTrim q.data ['"'])
  let pieces : List (String × String) :=
    if trimmedQuery = q then
      let words := (splitChar ' ' q.data).map String.mk
      words.flatMap (fun word => columns.map (fun column => (column, word)))
    else
      columns.map (fun column => (column, trimmedQuery))
  ("(" ++ String.intercalate binaryType
      (pieces.map (fun p => p.1 ++ notStr ++ " LIKE ?")) ++ ")",
   pieces.map (fun p => "%" ++ p.2 ++ "%"))

/-- A store whose every query reports the `sql.ErrNoRows` condition. -/
def noRowsStore : Store :=
  { get := fun _ _ => .noRows, select := fun _ _ => .noRows }

/-! ## Theorems -/

theorem count_dropWhile_ne (p : Char → Bool) (x : Char)
    (h : ∀ c, p c = true → c ≠ x) :
    ∀ l : List Char, (l.dropWhile p).count x = l.count x := by
  intro l
  induction l with
  | nil => rfl
  | cons c cs ih =>
    by_cases hc : p c = true
    · have hne : c ≠ x := h c hc
      simp [List.dropWhile_cons, hc, ih, List.count_cons, hne]
    · simp [List.dropWhile_cons, hc]

theorem count_trimRight_q (l : List Char) :
    (trimRightCutset l ", ".data).count '?' = l.count '?' := by
  unfold trimRightCutset
  rw [List.count_reverse,
    count_dropWhile_ne (fun c => (", ".data).contains c) '?' ?h (l.reverse),
    List.count_reverse]
  case h =>
    intro c hc hx
    subst hx
    simp at hc

theorem count_goRepeat (n : Nat) : (goRepeatChars "?, ".data n).count '?' = n := by
  induction n with
  | zero => rfl
  | succ k ih =>
    rw [goRepeatChars, List.count_append, ih]
    have h1 : List.count '?' "?, ".data = 1 := rfl
    omega

theorem placeholderCount_getInBinding (n : Nat) :
    placeholderCount (getInBinding n) = n := by
  unfold placeholderCount getInBinding
  rw [String.data_append, String.data_append, List.count_append, List.count_append]
  show (List.count '?' "(".data) +
      (trimRightCutset (goRepeatChars "?, ".data n) ", ".data).count '?' +
      List.count '?' ")".data = n
  rw [count_trimRight_q, count_goRepeat]
  have h1 : List.count '?' "(".data = 0 := rfl
  have h2 : List.count '?' ")".data = 0 := rfl
  omega

theorem placeholderCount_prepend (pre : String) (h : pre.data.count '?' = 0) (s : String) :
    placeholderCount (pre ++ s) = placeholderCount s := by
  unfold placeholderCount
  rw [String.data_append, List.count_append, h, Nat.zero_add]

/-- C2: the name-pattern matcher, modelled from the spec (its Go source is
absent from the analysed files; only its integration tests are present),
matches the entity name as one contiguous whole token: for entity name
`Foo's Bar` and separator `-`, the path `aaa-Foo's-Bar-bbb.mp4` matches and
the path `Foo's-aaa-Bar.mp4`, where the two name halves appear but are not
adjacent, does not match. -/
theorem C2_matcher_whole_token :
    nameMatches testEntityName truePositivePath = true ∧
    nameMatches testEntityName falsePositivePath = false := by
  constructor <;> rfl

/-- C3: for every (non-nil) find filter the pagination fragment is
`LIMIT perPage OFFSET (page-1)*perPage` with the page clamped up to 1 and
the page size clamped into [1,120], defaulting to 25 when absent; the
resolved page size is never zero and never unbounded. -/
theorem C3_pagination_clamped (f : FindFilterType) :
    ∃ page perPage : Int,
      page = max 1 (f.Page.getD 1) ∧
      perPage = min 120 (max 1 (f.PerPage.getD 25)) ∧
      1 ≤ perPage ∧ perPage ≤ 120 ∧
      getPagination (some f) =
        .ok (" LIMIT " ++ toString perPage ++ " OFFSET " ++
          toString ((page - 1) * perPage) ++ " ") := by
  obtain ⟨Q, Page, PerPage, SK, D⟩ := f
  cases Page with
  | none =>
    cases PerPage with
    | none =>
      refine ⟨1, 25, ?_, ?_, by omega, by omega, rfl⟩ <;> dsimp only [Option.getD] <;> omega
    | some pp =>
      refine ⟨1, if pp > 120 then 120 else if pp < 1 then 1 else pp,
        ?_, ?_, ?_, ?_, rfl⟩ <;> dsimp only [Option.getD] <;>
        first
        | (split_ifs <;> omega)
        | omega
  | some p =>
    cases PerPage with
    | none =>
      refine ⟨if p < 1 then 1 else p, 25, ?_, ?_, by omega, by omega, rfl⟩ <;>
        dsimp only [Option.getD] <;>
        first
        | (split_ifs <;> omega)
        | omega
    | some pp =>
      refine ⟨if p < 1 then 1 else p, if pp > 120 then 120 else if pp < 1 then 1 else pp,
        ?_, ?_, ?_, ?_, rfl⟩ <;> dsimp only [Option.getD] <;>
        first
        | (split_ifs <;> omega)
        | omega

/-- C4: the criterion-modifier rendering — each simple modifier yields its
comparison fragment with the stated argument count, INCLUDES/EXCLUDES yield
IN/NOT IN lists with exactly as many placeholders as the value collection's
size, and every other (invalid) modifier falls back to `= ?` with one
argument. -/
theorem C4_criterion_modifier_rendering :
    (∀ v, getCriterionModifierBinding "EQUALS" v = ("= ?", 1)) ∧
    (∀ v, getCriterionModifierBinding "NOT_EQUALS" v = ("!= ?", 1)) ∧
    (∀ v, getCriterionModifierBinding "GREATER_THAN" v = ("> ?", 1)) ∧
    (∀ v, getCriterionModifierBinding "LESS_THAN" v = ("< ?", 1)) ∧
    (∀ v, getCriterionModifierBinding "IS_NULL" v = ("IS NULL", 0)) ∧
    (∀ v, getCriterionModifierBinding "NOT_NULL" v = ("IS NOT NULL", 0)) ∧
    (∀ v, getCriterionModifierBinding "INCLUDES" v =
        ("IN " ++ getInBinding v.lengthOf, v.lengthOf) ∧
      placeholderCount ("IN " ++ getInBinding v.lengthOf) = v.lengthOf) ∧
    (∀ v, getCriterionModifierBinding "EXCLUDES" v =
        ("NOT IN " ++ getInBinding v.lengthOf, v.lengthOf) ∧
      placeholderCount ("NOT IN " ++ getInBinding v.lengthOf) = v.lengthOf) ∧
    (∀ (cm : CriterionModifier) (v : GoValue), cm.IsValid = false →
      getCriterionModifierBinding cm v = ("= ?", 1)) := by
  refine ⟨fun v => rfl, fun v => rfl, fun v => rfl, fun v => rfl, fun v => rfl, fun v => rfl,
    fun v => ⟨rfl, ?_⟩, fun v => ⟨rfl, ?_⟩, fun cm v hcm => ?_⟩
  · rw [placeholderCount_prepend "IN " rfl, placeholderCount_getInBinding]
  · rw [placeholderCount_prepend "NOT IN " rfl, placeholderCount_getInBinding]
  · simp [getCriterionModifierBinding, hcm]

theorem C4_witness :
    CriterionModifier.IsValid "BOGUS" = false ∧
    getCriterionModifierBinding "BOGUS" (GoValue.ints [7, 8]) = ("= ?", 1) :=
  ⟨rfl,
   C4_criterion_modifier_rendering.2.2.2.2.2.2.2.2 "BOGUS" (GoValue.ints [7, 8]) rfl⟩

/-- C8: the free-text search clause the studio query path splices into the
statement is NOT parameterized — two searches over the same column list
whose query strings split into the same number of words (one word each)
produce different SQL statement text, because `getSearch` concatenates the
user-supplied query into the statement (the source marks this
`TODO - susceptible to SQL injection`). -/
theorem C8_getSearch_not_parameterized :
    getSearch ["studios.name"] "abc" ≠ getSearch ["studios.name"] "xyz" := by
  decide

/-- C10: calling the studio Query operation with a nil find filter does not
panic — a fresh empty filter is substituted, giving the unfiltered plan with
default sort `name` ascending and pagination LIMIT 25 OFFSET 0 — even though
the pagination resolver itself panics on a nil filter. -/
theorem C10_nil_filter_query :
    studioQueryPlan none = studioQueryPlan (some {}) ∧
    studioQueryPlan none = .ok
      { body := "SELECT DISTINCT studios.id FROM studios  left join scenes on studios.id = scenes.studio_id ",
        whereClauses := [], args := [],
        sortAndPagination := " ORDER BY studios.name COLLATE NOCASE ASC LIMIT 25 OFFSET 0 " } ∧
    getPagination none = .panicked "nil find filter for pagination" := by
  refine ⟨rfl, ?_, rfl⟩
  rfl

theorem containsSub_of_decomp (s pre post pat : List Char)
    (h : s = pre ++ (pat ++ post)) : containsSub s pat = true := by
  subst h
  unfold containsSub
  rw [List.any_eq_true]
  refine ⟨pre.length, ?_, ?_⟩
  · rw [List.mem_range]
    simp only [List.length_append]
    omega
  · rw [decide_eq_true_eq, List.drop_left, List.take_left]

/-- C1: the two queries of a find operation are derived from one shared
body — the base projection plus joins, the WHERE fragments AND-joined, a
GROUP BY on the primary table's id column that is always present, and the
HAVING fragments AND-joined — executed against the same positional argument
list; the count query is exactly SELECT COUNT(*) over that body and the id
query is that body followed by the sort-and-pagination fragment. -/
theorem C1_find_queries_share_body (tableName body : String) (args : List String)
    (sortAndPagination : String) (whereClauses havingClauses : List String) :
    ∃ sharedBody : String,
      sharedBody =
        (let afterWhere :=
          if whereClauses ≠ [] then body ++ " WHERE " ++ goJoin whereClauses " AND "
          else body
        let grouped := afterWhere ++ " GROUP BY " ++ tableName ++ ".id "
        if havingClauses ≠ [] then grouped ++ " HAVING " ++ goJoin havingClauses " AND "
        else grouped) ∧
      containsSub sharedBody.data (" GROUP BY " ++ tableName ++ ".id ").data = true ∧
      executeFindQueryTexts tableName body args sortAndPagination whereClauses havingClauses =
        { countQuery := "SELECT COUNT(*) as count FROM (" ++ sharedBody ++ ") as temp",
          countArgs := args,
          idsQuery := sharedBody ++ sortAndPagination,
          idsArgs := args } := by
  cases whereClauses with
  | nil =>
    cases havingClauses with
    | nil =>
      refine ⟨_, rfl, ?_, by simp [executeFindQueryTexts, buildCountQuery]⟩
      exact containsSub_of_decomp _ body.data []
        (" GROUP BY " ++ tableName ++ ".id ").data
        (by simp [String.data_append, List.append_assoc])
    | cons h hs =>
      refine ⟨_, rfl, ?_, by simp [executeFindQueryTexts, buildCountQuery]⟩
      exact containsSub_of_decomp _ body.data
        (" HAVING " ++ goJoin (h :: hs) " AND ").data
        (" GROUP BY " ++ tableName ++ ".id ").data
        (by simp [String.data_append, List.append_assoc])
  | cons w ws =>
    cases havingClauses with
    | nil =>
      refine ⟨_, rfl, ?_, by simp [executeFindQueryTexts, buildCountQuery]⟩
      exact containsSub_of_decomp _
        (body ++ " WHERE " ++ goJoin (w :: ws) " AND ").data []
        (" GROUP BY " ++ tableName ++ ".id ").data
        (by simp [String.data_append, List.append_assoc])
    | cons h hs =>
      refine ⟨_, rfl, ?_, by simp [executeFindQueryTexts, buildCountQuery]⟩
      exact containsSub_of_decomp _
        (body ++ " WHERE " ++ goJoin (w :: ws) " AND ").data
        (" HAVING " ++ goJoin (h :: hs) " AND ").data
        (" GROUP BY " ++ tableName ++ ".id ").data
        (by simp [String.data_append, List.append_assoc])

theorem pair_foldl_push (f g : String → String) (l : List String) :
    ∀ a b : List String,
      l.foldl (fun (acc : List String × List String) x =>
        (acc.1 ++ [f x], acc.2 ++ [g x])) (a, b) =
      (a ++ l.map f, b ++ l.map g) := by
  induction l with
  | nil => intro a b; simp
  | cons x xs ih =>
    intro a b
    simp only [List.foldl_cons]
    rw [ih]
    simp

theorem pair_foldl_append (F G : String → List String) (l : List String) :
    ∀ a b : List String,
      l.foldl (fun (acc : List String × List String) x =>
        (acc.1 ++ F x, acc.2 ++ G x)) (a, b) =
      (a ++ l.flatMap F, b ++ l.flatMap G) := by
  induction l with
  | nil => intro a b; simp
  | cons x xs ih =>
    intro a b
    simp only [List.foldl_cons]
    rw [ih]
    simp

/-- C5 counterexample: for the query string `abc"` — which is not wrapped in
quotation marks, only terminated by one — the builder takes the phrase
branch (it strips the quote and binds `%abc%`), while the claim's
otherwise-branch would bind the word `%abc"%`. -/
theorem C5_counterexample :
    getSearchBinding ["name"] "abc\"" false ≠ claimedSearchBinding ["name"] "abc\"" false := by
  decide

/-- C5 amended: the phrase branch is taken exactly when stripping leading
and trailing quotation marks changes the query string (in particular when it
is wrapped in quotation marks), binding `%stripped%` once per column;
otherwise one LIKE clause per (word, column) pair for the query split at
space characters, each bound to `%word%`; all clauses use NOT LIKE joined by
AND when negated, LIKE joined by OR when not. -/
theorem C5_search_binding_amended (columns : List String) (q : String) (notFlag : Bool) :
    getSearchBinding columns q notFlag = amendedSearchBinding columns q notFlag := by
  unfold getSearchBinding amendedSearchBinding
  dsimp only
  by_cases h : String.mk (goTrim q.data ['"']) = q
  · rw [if_pos h, if_pos h]
    have hstep : (fun (acc : List String × List String) word =>
        columns.foldl (fun acc column =>
          (acc.1 ++ [column ++ (if notFlag then " NOT " else "") ++ " LIKE ?"],
           acc.2 ++ ["%" ++ word ++ "%"])) acc) =
        (fun (acc : List String × List String) word =>
          (acc.1 ++ columns.map (fun c => c ++ (if notFlag then " NOT " else "") ++ " LIKE ?"),
           acc.2 ++ columns.map (fun _ => "%" ++ word ++ "%"))) := by
      funext acc word
      rw [← pair_foldl_push (fun c => c ++ (if notFlag then " NOT " else "") ++ " LIKE ?")
        (fun _ => "%" ++ word ++ "%") columns acc.1 acc.2]
    rw [hstep, pair_foldl_append]
    simp [goJoin, List.map_flatMap, List.map_map, Function.comp_def]
  · rw [if_neg h, if_neg h]
    rw [pair_foldl_push (fun c => c ++ (if notFlag then " NOT " else "") ++ " LIKE ?")
      (fun _ => "%" ++ String.mk (goTrim q.data ['"']) ++ "%") columns [] []]
    simp [goJoin, List.map_map, Function.comp_def]

theorem texts_countArgs (tableName body : String) (args : List String)
    (sortAndPagination : String) (whereClauses havingClauses : List String) :
    (executeFindQueryTexts tableName body args sortAndPagination
      whereClauses havingClauses).countArgs = args := rfl

theorem texts_idsArgs (tableName body : String) (args : List String)
    (sortAndPagination : String) (whereClauses havingClauses : List String) :
    (executeFindQueryTexts tableName body args sortAndPagination
      whereClauses havingClauses).idsArgs = args := rfl

/-- C6: during a find operation the outcome is a panic exactly when the
count query or the id query fails with something other than "no rows"; a
successful outcome always carries both the count and the id list, with a
"no rows" count query yielding 0 and a "no rows" id query yielding the empty
list — a partial result is never returned. -/
theorem C6_failure_atomicity (store : Store) (tableName body : String)
    (args : List String) (sortAndPagination : String)
    (whereClauses havingClauses : List String) :
    ((∃ e, executeFindQuery store tableName body args sortAndPagination
        whereClauses havingClauses = .panicked e) ↔
      ((∃ e, store.get (executeFindQueryTexts tableName body args sortAndPagination
          whereClauses havingClauses).countQuery args = .failure e) ∨
       (∃ e, store.select (executeFindQueryTexts tableName body args sortAndPagination
          whereClauses havingClauses).idsQuery args = .failure e))) ∧
    (∀ ids c, executeFindQuery store tableName body args sortAndPagination
        whereClauses havingClauses = .ok ids c →
      (store.get (executeFindQueryTexts tableName body args sortAndPagination
          whereClauses havingClauses).countQuery args = .rows c ∨
        (store.get (executeFindQueryTexts tableName body args sortAndPagination
          whereClauses havingClauses).countQuery args = .noRows ∧ c = 0)) ∧
      (store.select (executeFindQueryTexts tableName body args sortAndPagination
          whereClauses havingClauses).idsQuery args = .rows ids ∨
        (store.select (executeFindQueryTexts tableName body args sortAndPagination
          whereClauses havingClauses).idsQuery args = .noRows ∧ ids = []))) := by
  cases hget : store.get (executeFindQueryTexts tableName body args sortAndPagination
      whereClauses havingClauses).countQuery args <;>
    cases hsel : store.select (executeFindQueryTexts tableName body args sortAndPagination
      whereClauses havingClauses).idsQuery args <;>
    simp [executeFindQuery, runCountQuery, runIdsQuery, texts_countArgs, texts_idsArgs,
      hget, hsel]

theorem C6_witness :
    (noRowsStore.get (executeFindQueryTexts "studios" "b" [] "" [] []).countQuery [] =
        .rows 0 ∨
      (noRowsStore.get (executeFindQueryTexts "studios" "b" [] "" [] []).countQuery [] =
        .noRows ∧ (0 : Int) = 0)) ∧
    (noRowsStore.select (executeFindQueryTexts "studios" "b" [] "" [] []).idsQuery [] =
        .rows [] ∨
      (noRowsStore.select (executeFindQueryTexts "studios" "b" [] "" [] []).idsQuery [] =
        .noRows ∧ ([] : List Int) = [])) :=
  (C6_failure_atomicity noRowsStore "studios" "b" [] "" [] []).2 [] 0 rfl

/-- C7: every mutating studio operation invoked with a nil transaction fails
fatally — Create and Update panic in `ensureTx`, Destroy panics
dereferencing the nil transaction — and with a non-nil transaction none of
them panics (store failures come back as recoverable errors). -/
theorem C7_mutations_require_transaction :
    (∀ s, StudioQueryBuilder.Create s none = .panicked ensureTxPanicMsg) ∧
    (∀ s, StudioQueryBuilder.Update s none = .panicked ensureTxPanicMsg) ∧
    StudioQueryBuilder.Destroy none = .panicked nilTxDerefMsg ∧
    (∀ s t, (StudioQueryBuilder.Create s (some t)).isPanic = false) ∧
    (∀ s t, (StudioQueryBuilder.Update s (some t)).isPanic = false) ∧
    (∀ t, (StudioQueryBuilder.Destroy (some t)).isPanic = false) := by
  refine ⟨fun s => rfl, fun s => rfl, rfl, fun s t => ?_, fun s t => ?_, fun t => ?_⟩
  · obtain ⟨ne, gs⟩ := t
    cases ne with
    | error e => rfl
    | ok res =>
      cases res with
      | error e => rfl
      | ok sid =>
        cases gs with
        | error e => rfl
        | ok s2 => rfl
  · obtain ⟨ne, gs⟩ := t
    cases ne with
    | error e => rfl
    | ok u =>
      cases gs with
      | error e => rfl
      | ok s2 => rfl
  · obtain ⟨e1, e2, e3⟩ := t
    cases e1 with
    | error e => rfl
    | ok u1 =>
      cases e2 with
      | error e => rfl
      | ok u2 =>
        cases e3 with
        | error e => rfl
        | ok u3 => rfl

theorem include_false_eq_nonEmpty (v : FieldValue) :
    includeField false v = v.nonEmpty := by
  cases v <;> rfl

theorem sqlGenKeys_foldl (fields : List GoField) :
    ∀ init : List String,
      fields.foldl (fun (query : List String) f =>
        let key := dbKey f.tag
        if key = "id" then query
        else if includeField false f.value then query ++ [key ++ "=:" ++ key]
        else query) init =
      init ++ (fields.filter (fun f => (dbKey f.tag != "id") && f.value.nonEmpty)).map
        (fun f => dbKey f.tag ++ "=:" ++ dbKey f.tag) := by
  induction fields with
  | nil => intro init; simp
  | cons f fs ih =>
    intro init
    simp only [List.foldl_cons, List.filter_cons]
    by_cases hid : dbKey f.tag = "id"
    · have hp : ((dbKey f.tag != "id") && f.value.nonEmpty) = false := by
        simp [hid]
      rw [if_pos hid, hp, ih]
      simp
    · rw [if_neg hid]
      by_cases hne : includeField false f.value = true
      · have hp : ((dbKey f.tag != "id") && f.value.nonEmpty) = true := by
          rw [← include_false_eq_nonEmpty]
          simp [hid, hne]
        rw [if_pos hne, hp, ih]
        simp
      · have hinc : includeField false f.value = false := by
          cases hb : includeField false f.value
          · rfl
          · exact absurd hb hne
        have hp : ((dbKey f.tag != "id") && f.value.nonEmpty) = false := by
          rw [← include_false_eq_nonEmpty, hinc, Bool.and_false]
        rw [if_neg hne, hp, ih]
        simp

/-- C9: for a full (non-partial) record, the generated SET clause lists
exactly the columns whose field values are non-empty under the convention —
non-empty string, non-zero int/float, non-zero timestamp, valid
date/`sql.Null*` wrapper, non-nil pointer — never the id column; empty
fields are omitted and therefore left unchanged. -/
theorem C9_full_update_set_clause (fields : List GoField) :
    SQLGenKeys fields =
      String.intercalate ", "
        ((fields.filter (fun f => (dbKey f.tag != "id") && f.value.nonEmpty)).map
          (fun f => dbKey f.tag ++ "=:" ++ dbKey f.tag)) := by
  unfold SQLGenKeys sqlGenKeys goJoin
  rw [sqlGenKeys_foldl fields []]
  simp

end Stash





